import Mathlib

/-!
Shallow embedding of the `component-ai-agent` VS Code extension:
the RAG HTTP client (`rag-client/client.ts`), the Copilot chat agent
(`copilot/agent.ts`), the Copilot tools (`copilot/tools.ts`) and the
sidebar webview script (`sidebar/provider.ts`).

Transport is modelled by oracle functions returning `Except String _`
(a thrown JS error is `.error msg`); a `try/catch` in the source becomes
a `match` on that result.  JS objects whose fields the code accesses
dynamically are modelled as association lists of `JsVal`; typed records
become structures.  Numeric scores are only copied by this code, never
computed, so they are modelled as `Int`.
-/

/-- JS `String.prototype.toLowerCase` restricted to the ASCII range used
by the agent's keyword matching. -/
def toLowerStr (s : String) : String := String.mk (s.data.map Char.toLower)

/-- Whether `pat` occurs at the start of `s` (character lists). -/
def listStartsWith : List Char → List Char → Bool
  | [], _ => true
  | _ :: _, [] => false
  | a :: as, b :: bs => a == b && listStartsWith as bs

/-- Whether `pat` occurs anywhere inside `s` (character lists). -/
def occursIn (pat s : List Char) : Bool :=
  match s with
  | [] => pat.isEmpty
  | _ :: rest => listStartsWith pat s || occursIn pat rest

/-- JS `s.includes(pat)`. -/
def strIncludes (s pat : String) : Bool := occursIn pat.data s.data

/-- JS truthiness of a string-or-undefined value: `undefined` and the
empty string are falsy. -/
def jsTruthyStr (v : Option String) : Bool :=
  match v with
  | none => false
  | some s => !s.isEmpty

/-- JS `v || d` where `v` is a number-or-undefined: `undefined` and `0`
are falsy and select the default. -/
def jsOrNum (v : Option Int) (d : Int) : Int :=
  match v with
  | none => d
  | some n => if n = 0 then d else n

/-- Component prop as carried on the wire and read by the extension
(`shared-types/src/component.ts`, `ComponentProp`). -/
structure ComponentProp where
  name : String
  type : String
  required : Bool
  defaultValue : Option String := none
  description : Option String := none
deriving DecidableEq, Repr

/-- Component usage example (`shared-types/src/component.ts`,
`ComponentExample`). -/
structure ComponentExample where
  title : String
  code : String
  description : Option String := none
  source : Option String := none
deriving DecidableEq, Repr

/-- The component object as it actually reaches the extension at runtime
and is read by `agent.ts`, `tools.ts` and `provider.ts`: the wire uses
snake_case field names (`import_path`, `file_path`, `export_type`,
`theme_wrapper`), which is what the consuming code accesses. -/
structure Component where
  id : String
  name : String
  description : String
  file_path : Option String := none
  import_path : Option String := none
  export_type : Option String := none
  theme_wrapper : Option String := none
  category : Option String := none
  tags : Option (List String) := none
  props : List ComponentProp := []
  examples : List ComponentExample := []
deriving DecidableEq, Repr

/-- One search result item (`shared-types/src/rag.ts`, `SearchResult`):
a component plus its similarity score. -/
structure SearchItem where
  component : Component
  score : Int
deriving DecidableEq, Repr

/-- Search response (`shared-types/src/rag.ts`, `SearchResponse`). -/
structure SearchResponse where
  results : List SearchItem
  total : Nat
  query : String
deriving DecidableEq, Repr

/-- User intent as classified by the agent (`agent.ts`). -/
inductive Intent
  | search
  | suggest
  | explain
deriving DecidableEq, Repr

/-- The first keyword test of `CopilotAgent.determineIntent`
(`agent.ts` lines 84-88). -/
def hasExplainKeyword (query : String) : Bool :=
  let lowerQuery := toLowerStr query
  strIncludes lowerQuery "explain" ||
  strIncludes lowerQuery "what is" ||
  strIncludes lowerQuery "tell me about"

/-- The second keyword test of `CopilotAgent.determineIntent`
(`agent.ts` lines 90-96). -/
def hasSuggestKeyword (query : String) : Bool :=
  let lowerQuery := toLowerStr query
  strIncludes lowerQuery "suggest" ||
  strIncludes lowerQuery "recommend" ||
  strIncludes lowerQuery "i need" ||
  strIncludes lowerQuery "i want to build" ||
  strIncludes lowerQuery "help me build"

/-- `CopilotAgent.determineIntent` (`agent.ts` lines 81-101). -/
def determineIntent (query : String) : Intent :=
  if hasExplainKeyword query then Intent.explain
  else if hasSuggestKeyword query then Intent.suggest
  else Intent.search

/-- The chat result built on every return path of the agent
(`agent.ts`): the object `metadata.command`, always the empty string. -/
structure ChatResult where
  command : String
deriving DecidableEq, Repr

/-- The chat result value every handler returns. -/
def normalChatResult : ChatResult := ChatResult.mk ""

/-- One HTTP request issued by the agent to the RAG service, recorded
for reasoning about which calls a code path performs. -/
inductive ServiceCall
  | healthCheck
  | search (query : String) (limit : Int)
  | suggest (query : String) (limit : Int)
  | componentsByName (name : String)
deriving DecidableEq, Repr

/-- Behaviour of the `RAGClient` instance as observed by the agent:
`healthCheck` never throws and yields a Bool (see
`RAGClient.healthCheck`), the other methods either return a parsed
response or throw (`Except.error`). -/
structure ClientBehavior where
  healthCheck : Bool
  searchComponents : String → Int → Except String SearchResponse
  suggestComponents : String → Int → Except String SearchResponse
  getComponentsByName : String → Except String (List Component)

/-- Outcome of one chat request: the returned `ChatResult`, the markdown
chunks streamed, and the service calls issued. -/
structure ChatOutcome where
  result : ChatResult
  stream : List String
  calls : List ServiceCall
deriving DecidableEq, Repr

/-- One prop line streamed by `CopilotAgent.handleSearch`
(`agent.ts` line 135). -/
def searchPropLine (prop : ComponentProp) : String :=
  "- `" ++ prop.name ++ "`: " ++ prop.type ++
    (if prop.required then " (required)" else "") ++ "\n"

/-- Markdown chunks streamed per result by `CopilotAgent.handleSearch`
(`agent.ts` lines 123-146). -/
def searchItemMarkdown (item : SearchItem) : List String :=
  let comp := item.component
  ["### " ++ comp.name ++ "\n\n", comp.description ++ "\n\n"]
  ++ (if jsTruthyStr comp.import_path then
        ["**Import:** `import \x7b " ++ comp.name ++ " \x7d from \x27" ++
          comp.import_path.getD "" ++ "\x27;`\n\n"]
      else [])
  ++ (if comp.props.length > 0 then
        ["**Props:**\n"] ++ (comp.props.take 3).map searchPropLine ++ ["\n"]
      else [])
  ++ (match comp.examples with
      | ex :: _ => ["**Example:**\n```tsx\n" ++ ex.code ++ "\n```\n\n"]
      | [] => [])
  ++ ["---\n\n"]

/-- `CopilotAgent.handleSearch` (`agent.ts` lines 106-153): issues
`POST /api/search` with limit 5; its try/catch turns a thrown client
error into a streamed message and a normal result. -/
def handleSearch (client : ClientBehavior) (query : String) : ChatOutcome :=
  match client.searchComponents query 5 with
  | Except.error e =>
      ChatOutcome.mk normalChatResult ["Failed to search: " ++ e] [ServiceCall.search query 5]
  | Except.ok result =>
      if result.results.length = 0 then
        ChatOutcome.mk normalChatResult ["No components found matching your query."]
          [ServiceCall.search query 5]
      else
        ChatOutcome.mk normalChatResult
          (("Found " ++ toString result.results.length ++ " components:\n\n")
            :: result.results.flatMap searchItemMarkdown)
          [ServiceCall.search query 5]

/-- Markdown chunks streamed per result by `CopilotAgent.handleSuggest`
(`agent.ts` lines 175-190). -/
def suggestItemMarkdown (item : SearchItem) : List String :=
  let comp := item.component
  ["### " ++ comp.name ++ "\n\n", comp.description ++ "\n\n"]
  ++ (if jsTruthyStr comp.import_path then
        ["**Import:** `import \x7b " ++ comp.name ++ " \x7d from \x27" ++
          comp.import_path.getD "" ++ "\x27;`\n\n"]
      else [])
  ++ (match comp.examples with
      | ex :: _ => ["**Example usage:**\n```tsx\n" ++ ex.code ++ "\n```\n\n"]
      | [] => [])
  ++ ["---\n\n"]

/-- `CopilotAgent.handleSuggest` (`agent.ts` lines 158-197): issues
`POST /api/search/suggest` with limit 5. -/
def handleSuggest (client : ClientBehavior) (query : String) : ChatOutcome :=
  match client.suggestComponents query 5 with
  | Except.error e =>
      ChatOutcome.mk normalChatResult ["Failed to get suggestions: " ++ e]
        [ServiceCall.suggest query 5]
  | Except.ok result =>
      if result.results.length = 0 then
        ChatOutcome.mk normalChatResult ["No component suggestions found for your description."]
          [ServiceCall.suggest query 5]
      else
        ChatOutcome.mk normalChatResult
          (("Here are " ++ toString result.results.length ++ " component suggestions:\n\n")
            :: result.results.flatMap suggestItemMarkdown)
          [ServiceCall.suggest query 5]

/-- Prop lines streamed by `CopilotAgent.handleExplain`
(`agent.ts` lines 240-245). -/
def explainPropLines (prop : ComponentProp) : List String :=
  ["- **" ++ prop.name ++ "**: `" ++ prop.type ++ "`" ++
    (if prop.required then " (required)" else " (optional)") ++ "\n"]
  ++ (if jsTruthyStr prop.description then
        ["  - " ++ prop.description.getD "" ++ "\n"]
      else [])

/-- Example blocks streamed by `CopilotAgent.handleExplain`
(`agent.ts` lines 251-257). -/
def explainExampleBlock (ex : ComponentExample) : List String :=
  ["### " ++ ex.title ++ "\n\n"]
  ++ (if jsTruthyStr ex.description then
        [ex.description.getD "" ++ "\n\n"]
      else [])
  ++ ["```tsx\n" ++ ex.code ++ "\n```\n\n"]

/-- Markdown streamed for the explained component, which is
`components[0]` (`agent.ts` lines 225-258). -/
def explainMarkdown (comp : Component) : List String :=
  ["# " ++ comp.name ++ "\n\n", comp.description ++ "\n\n"]
  ++ (if jsTruthyStr comp.category then
        ["**Category:** " ++ comp.category.getD "" ++ "\n\n"]
      else [])
  ++ (if jsTruthyStr comp.import_path then
        ["**Import:**\n```tsx\nimport \x7b " ++ comp.name ++ " \x7d from \x27" ++
          comp.import_path.getD "" ++ "\x27;\n```\n\n"]
      else [])
  ++ (if comp.props.length > 0 then
        ["## Props\n\n"] ++ comp.props.flatMap explainPropLines ++ ["\n"]
      else [])
  ++ (if comp.examples.length > 0 then
        ["## Examples\n\n"] ++ comp.examples.flatMap explainExampleBlock
      else [])

/-- `CopilotAgent.handleExplain` (`agent.ts` lines 202-265), taking the
result of `extractComponentName` (a regex search, supplied as an oracle)
as `componentName`; `GET /api/components/name/:name` is issued only when
a name was extracted, and the component explained is the head of the
returned list. -/
def handleExplain (client : ClientBehavior) (componentName : Option String) : ChatOutcome :=
  match componentName with
  | none =>
      ChatOutcome.mk normalChatResult
        ["Could not determine which component to explain. Please specify a component name."] []
  | some name =>
      match client.getComponentsByName name with
      | Except.error e =>
          ChatOutcome.mk normalChatResult ["Failed to explain component: " ++ e]
            [ServiceCall.componentsByName name]
      | Except.ok components =>
          match components with
          | [] =>
              ChatOutcome.mk normalChatResult
                ["Component \"" ++ name ++ "\" not found in the knowledge base."]
                [ServiceCall.componentsByName name]
          | comp :: _ =>
              ChatOutcome.mk normalChatResult (explainMarkdown comp)
                [ServiceCall.componentsByName name]

/-- The advisory streamed when the health check fails
(`agent.ts` lines 49-51). -/
def unhealthyAdvisory : String :=
  "⚠️ RAG service is not running. Please start it using the command: **Component AI: Start RAG Service**"

/-- `CopilotAgent.handleRequest` (`agent.ts` lines 37-76): checks
health first and stops with an advisory when unhealthy; otherwise
classifies the prompt and dispatches to exactly one handler
(`extractName` is the `extractComponentName` regex oracle used by the
explain path). -/
def handleRequest (client : ClientBehavior) (extractName : String → Option String)
    (prompt : String) : ChatOutcome :=
  if client.healthCheck = false then
    ChatOutcome.mk normalChatResult [unhealthyAdvisory] [ServiceCall.healthCheck]
  else
    let query := prompt
    let intent := determineIntent query
    let pre := ["🔍 Searching for components...\n\n"]
    let sub :=
      match intent with
      | Intent.search => handleSearch client query
      | Intent.suggest => handleSuggest client query
      | Intent.explain => handleExplain client (extractName query)
    ChatOutcome.mk sub.result (pre ++ sub.stream) (ServiceCall.healthCheck :: sub.calls)

/-- Component view returned by `searchComponentsTool.handler`
(`tools.ts` lines 43-49): camelCase output keys filled from the wire
component's snake_case fields. -/
structure SearchToolItem where
  name : String
  description : String
  importPath : Option String
  props : List ComponentProp
  score : Int
deriving DecidableEq, Repr

/-- Result object of `searchComponentsTool.handler`. -/
structure SearchToolResult where
  success : Bool
  components : List SearchToolItem := []
  error : Option String := none
deriving DecidableEq, Repr

/-- `searchComponentsTool.handler` (`tools.ts` lines 33-57), paired with
the service call it issues; `limit` is `parameters.limit`
(number-or-undefined), coerced by JS `||` with default 10. -/
def searchComponentsToolHandler (searchComponents : String → Int → Except String SearchResponse)
    (query : String) (limit : Option Int) : SearchToolResult × List ServiceCall :=
  let l := jsOrNum limit 10
  match searchComponents query l with
  | Except.ok result =>
      (SearchToolResult.mk true
        (result.results.map fun r =>
          SearchToolItem.mk r.component.name r.component.description r.component.import_path
            r.component.props r.score)
        none,
        [ServiceCall.search query l])
  | Except.error e =>
      (SearchToolResult.mk false [] (some ("Failed to search components: " ++ e)),
        [ServiceCall.search query l])

/-- Component view returned by `explainComponentTool.handler`
(`tools.ts` lines 92-103): camelCase output keys filled from the wire
component's snake_case fields. -/
structure ExplainToolComponent where
  name : String
  description : String
  filePath : Option String
  importPath : Option String
  exportType : Option String
  props : List ComponentProp
  examples : List ComponentExample
  themeWrapper : Option String
  category : Option String
  tags : Option (List String)
deriving DecidableEq, Repr

/-- The field mapping applied to `components[0]` by
`explainComponentTool.handler`. -/
def explainToolView (c : Component) : ExplainToolComponent :=
  ExplainToolComponent.mk c.name c.description c.file_path c.import_path c.export_type
    c.props c.examples c.theme_wrapper c.category c.tags

/-- Result object of `explainComponentTool.handler`. -/
structure ExplainToolResult where
  success : Bool
  component : Option ExplainToolComponent := none
  error : Option String := none
deriving DecidableEq, Repr

/-- `explainComponentTool.handler` (`tools.ts` lines 77-111), paired
with the service call it issues. -/
def explainComponentToolHandler (getComponentsByName : String → Except String (List Component))
    (componentName : String) : ExplainToolResult × List ServiceCall :=
  match getComponentsByName componentName with
  | Except.error e =>
      (ExplainToolResult.mk false none (some ("Failed to get component details: " ++ e)),
        [ServiceCall.componentsByName componentName])
  | Except.ok components =>
      match components with
      | [] =>
          (ExplainToolResult.mk false none
            (some ("Component \"" ++ componentName ++ "\" not found")),
            [ServiceCall.componentsByName componentName])
      | component :: _ =>
          (ExplainToolResult.mk true (some (explainToolView component)) none,
            [ServiceCall.componentsByName componentName])

/-- Suggestion view returned by `suggestComponentForUITool.handler`
(`tools.ts` lines 146-153): includes only the first example. -/
structure SuggestToolItem where
  name : String
  description : String
  importPath : Option String
  props : List ComponentProp
  score : Int
  examples : List ComponentExample
deriving DecidableEq, Repr

/-- Result object of `suggestComponentForUITool.handler`. -/
structure SuggestToolResult where
  success : Bool
  suggestions : List SuggestToolItem := []
  error : Option String := none
deriving DecidableEq, Repr

/-- `suggestComponentForUITool.handler` (`tools.ts` lines 136-161):
limit is coerced by JS `||` with default 5. -/
def suggestComponentForUIToolHandler
    (suggestComponents : String → Int → Except String SearchResponse)
    (uiDescription : String) (limit : Option Int) : SuggestToolResult × List ServiceCall :=
  let l := jsOrNum limit 5
  match suggestComponents uiDescription l with
  | Except.ok result =>
      (SuggestToolResult.mk true
        (result.results.map fun r =>
          SuggestToolItem.mk r.component.name r.component.description r.component.import_path
            r.component.props r.score (r.component.examples.take 1))
        none,
        [ServiceCall.suggest uiDescription l])
  | Except.error e =>
      (SuggestToolResult.mk false [] (some ("Failed to suggest components: " ++ e)),
        [ServiceCall.suggest uiDescription l])

/-- Parsed body of `GET /api/health` as accessed by
`RAGClient.healthCheck` (`client.ts` lines 465-472): only the `status`
field is read; `none` models an absent field. -/
structure HealthData where
  status : Option String
deriving DecidableEq, Repr

/-- `RAGClient.healthCheck` (`client.ts` lines 465-472): the transport
outcome is `Except.error` for any thrown/axios failure, `Except.ok` for
a response; the method returns `response.data.status === 'healthy'` and
its catch returns `false`, so it never throws. -/
def ragHealthCheck (response : Except String HealthData) : Bool :=
  match response with
  | Except.ok data => data.status == some "healthy"
  | Except.error _ => false

/-- Typed scan request (`shared-types/src/rag.ts`,
`ScanComponentFolderRequest`): camelCase, optional flags. -/
structure ScanComponentFolderRequest where
  folderPath : String
  includeStorybooks : Option Bool := none
  includeTests : Option Bool := none
  recursive : Option Bool := none
deriving DecidableEq, Repr

/-- The snake_case body `RAGClient.scanFolder` posts to `/api/scan`
(`client.ts` lines 589-594). -/
structure ScanWireRequest where
  folder_path : String
  include_storybooks : Bool
  include_tests : Bool
  recursive : Bool
deriving DecidableEq, Repr

/-- The snake_case response body of `POST /api/scan` as read by
`RAGClient.scanFolder` (`client.ts` lines 599-603); `errors` may be
absent on the wire. -/
structure ScanWireResponse where
  components_found : Nat
  components : List Component
  errors : Option (List String) := none
deriving DecidableEq, Repr

/-- Typed scan result (`shared-types/src/rag.ts`, `ScanResult`) as
returned by `RAGClient.scanFolder`. -/
structure ScanResult where
  componentsFound : Nat
  components : List Component
  errors : List String
deriving DecidableEq, Repr

/-- Request translation in `RAGClient.scanFolder` (`client.ts` lines
589-594): camelCase fields to snake_case wire keys, with `??` defaults
true/false/true. -/
def scanFolderWire (request : ScanComponentFolderRequest) : ScanWireRequest :=
  ScanWireRequest.mk request.folderPath (request.includeStorybooks.getD true)
    (request.includeTests.getD false) (request.recursive.getD true)

/-- Response translation in `RAGClient.scanFolder` (`client.ts` lines
599-603): snake_case wire fields to camelCase, `errors || []`. -/
def scanFolderResult (data : ScanWireResponse) : ScanResult :=
  ScanResult.mk data.components_found data.components (data.errors.getD [])

/-- `RAGClient.scanFolder` (`client.ts` lines 586-608): posts the
translated body and translates the response; its catch rethrows a fixed
error. `post` is the transport oracle. -/
def ragScanFolder (post : ScanWireRequest → Except String ScanWireResponse)
    (request : ScanComponentFolderRequest) : Except String ScanResult :=
  match post (scanFolderWire request) with
  | Except.ok data => Except.ok (scanFolderResult data)
  | Except.error _ => Except.error "Failed to scan folder"

/-- Untyped JS runtime value, for the object literals the extension
passes across the camelCase/snake_case boundary. -/
inductive JsVal
  | str (s : String)
  | bool (b : Bool)
  | undef
deriving DecidableEq, Repr

/-- A JS object as an association list of fields. -/
def JsObj := List (String × JsVal)

/-- JS property access `obj.key`: `undefined` when the key is absent. -/
def jsGet (obj : JsObj) (key : String) : JsVal :=
  match List.find? (fun p => p.1 == key) obj with
  | some p => p.2
  | none => JsVal.undef

/-- JS nullish coalescing `a ?? b` (on our runtime values `undefined`
is the only nullish value). -/
def jsNullish (a b : JsVal) : JsVal :=
  match a with
  | JsVal.undef => b
  | v => v

/-- JS strict comparison `v !== false` as used by the scan tool's
option defaulting (`tools.ts` lines 196-198). -/
def jsNotFalse (v : JsVal) : JsVal :=
  JsVal.bool (v != JsVal.bool false)

/-- Runtime semantics of the body construction inside
`RAGClient.scanFolder` (`client.ts` lines 589-594): the method reads
the camelCase keys `folderPath`/`includeStorybooks`/`includeTests`/
`recursive` off whatever object it was actually given. -/
def scanFolderPythonRequest (request : JsObj) : JsObj :=
  [("folder_path", jsGet request "folderPath"),
   ("include_storybooks", jsNullish (jsGet request "includeStorybooks") (JsVal.bool true)),
   ("include_tests", jsNullish (jsGet request "includeTests") (JsVal.bool false)),
   ("recursive", jsNullish (jsGet request "recursive") (JsVal.bool true))]

/-- The argument object `scanComponentFolderTool.handler` passes to
`client.scanFolder` (`tools.ts` lines 194-199): snake_case keys built
from the tool parameters. -/
def scanToolClientArg (folderPath includeStorybooks recursive : JsVal) : JsObj :=
  [("folder_path", folderPath),
   ("include_storybooks", jsNotFalse includeStorybooks),
   ("include_tests", JsVal.bool false),
   ("recursive", jsNotFalse recursive)]

/-- Field names declared by the shared `Component` interface
(`shared-types/src/component.ts` lines 26-40). -/
def componentTypeFields : List String :=
  ["id", "name", "description", "filePath", "props", "examples", "themeWrapper",
   "category", "tags", "importPath", "exportType", "createdAt", "updatedAt"]

/-- Field names `searchComponentsTool.handler` reads off each
search-result component (`tools.ts` lines 44-48). -/
def searchToolComponentFieldsRead : List String :=
  ["name", "description", "import_path", "props"]

/-- Field names `explainComponentTool.handler` reads off the
`Component`-typed value `components[0]` (`tools.ts` lines 93-102). -/
def explainToolComponentFieldsRead : List String :=
  ["name", "description", "file_path", "import_path", "export_type", "props",
   "examples", "theme_wrapper", "category", "tags"]

/-- Whether a field name is written in snake_case (contains an
underscore). -/
def hasUnderscore (s : String) : Bool := s.data.contains '_'

/-- The `RAGClient` instance state (`client.ts` lines 447-460): the
constructor derives `baseUrl` from the port. -/
structure RAGClient where
  baseUrl : String
deriving DecidableEq, Repr

/-- The `RAGClient` constructor (`client.ts` lines 451-460). -/
def RAGClient.make (port : Nat) : RAGClient :=
  RAGClient.mk ("http://localhost:" ++ toString port)

/-- `getRAGClient` (`client.ts` lines 611-620): reads and writes the
module-level variable `ragClient` (the ambient state, passed here
explicitly as `st`); `port` is the workspace configuration value. -/
def getRAGClient (port : Nat) (st : Option RAGClient) : RAGClient × Option RAGClient :=
  match st with
  | some c => (c, some c)
  | none =>
      let c := RAGClient.make port
      (c, some c)

/-- `resetRAGClient` (`client.ts` lines 622-624). -/
def resetRAGClient : Option RAGClient := none

/-- The webview script's `componentDeleted` case (`provider.ts` lines
349-352): `allComponents = allComponents.filter(c => c.id !==
message.componentId)` followed by re-rendering the filtered list. -/
def webviewComponentDeleted (allComponents : List Component) (componentId : String) :
    List Component :=
  allComponents.filter (fun c => c.id != componentId)

/-- The result object of `scanComponentFolderTool.handler`
(`tools.ts` lines 201-206 and 208-212). -/
structure ScanToolResult where
  success : Bool
  componentsFound : Option Nat := none
  components : List String := []
  errors : List String := []
  error : Option String := none
deriving DecidableEq, Repr

/-- `scanComponentFolderTool.handler` (`tools.ts` lines 191-213):
builds its snake_case argument object and hands it to
`client.scanFolder` (the `scanFolder` oracle models that call's
outcome); its catch returns a failure object. -/
def scanComponentFolderToolHandler (scanFolder : JsObj → Except String ScanResult)
    (folderPath includeStorybooks recursive : JsVal) : ScanToolResult :=
  match scanFolder (scanToolClientArg folderPath includeStorybooks recursive) with
  | Except.ok result =>
      ScanToolResult.mk true (some result.componentsFound)
        (result.components.map (fun c => c.name)) result.errors none
  | Except.error e =>
      ScanToolResult.mk false none [] [] (some ("Failed to scan folder: " ++ e))


/-! Helper lemmas shared between the claim theorems. -/

theorem handleSearch_result (client : ClientBehavior) (q : String) :
    (handleSearch client q).result = normalChatResult := by
  unfold handleSearch
  cases client.searchComponents q 5 with
  | error e => rfl
  | ok result =>
    simp only []
    split <;> rfl

theorem handleSuggest_result (client : ClientBehavior) (q : String) :
    (handleSuggest client q).result = normalChatResult := by
  unfold handleSuggest
  cases client.suggestComponents q 5 with
  | error e => rfl
  | ok result =>
    simp only []
    split <;> rfl

theorem handleExplain_result (client : ClientBehavior) (n : Option String) :
    (handleExplain client n).result = normalChatResult := by
  unfold handleExplain
  cases n with
  | none => rfl
  | some name =>
    cases h : client.getComponentsByName name with
    | error e => simp [h]
    | ok components => cases components <;> simp [h]

theorem searchTool_calls (searchFn : String → Int → Except String SearchResponse)
    (q : String) (lim : Option Int) :
    (searchComponentsToolHandler searchFn q lim).2 = [ServiceCall.search q (jsOrNum lim 10)] := by
  unfold searchComponentsToolHandler
  cases h : searchFn q (jsOrNum lim 10) <;> simp [h]

theorem suggestTool_calls (suggestFn : String → Int → Except String SearchResponse)
    (u : String) (lim : Option Int) :
    (suggestComponentForUIToolHandler suggestFn u lim).2 =
      [ServiceCall.suggest u (jsOrNum lim 5)] := by
  unfold suggestComponentForUIToolHandler
  cases h : suggestFn u (jsOrNum lim 5) <;> simp [h]

theorem jsOrNum_ne_zero (v : Option Int) (d : Int) (hd : d ≠ 0) : jsOrNum v d ≠ 0 := by
  unfold jsOrNum
  cases v with
  | none => exact hd
  | some n =>
    by_cases hn : n = 0 <;> simp [hn, hd]

/-- C2: intent classification is caller-side keyword matching:
`determineIntent` returns `explain` whenever the lowercased query
contains an explain keyword, otherwise `suggest` whenever it contains a
suggest keyword, otherwise `search`; explain keywords take precedence
and every query lands in exactly one of the three intents. -/
theorem determineIntent_keyword_routing (q : String) :
    (hasExplainKeyword q = true → determineIntent q = Intent.explain)
    ∧ (hasExplainKeyword q = false → hasSuggestKeyword q = true →
        determineIntent q = Intent.suggest)
    ∧ (hasExplainKeyword q = false → hasSuggestKeyword q = false →
        determineIntent q = Intent.search)
    ∧ (determineIntent q = Intent.explain ∨ determineIntent q = Intent.suggest ∨
        determineIntent q = Intent.search) := by
  unfold determineIntent
  cases h1 : hasExplainKeyword q <;> cases h2 : hasSuggestKeyword q <;> simp [h1, h2]

/-- Witness for C2 at concrete queries: a query with both an explain
and a suggest keyword goes to explain, one with only a suggest keyword
goes to suggest, one with neither goes to search. -/
theorem determineIntent_keyword_routing_witness :
    determineIntent "explain or suggest it" = Intent.explain
    ∧ determineIntent "suggest a button" = Intent.suggest
    ∧ determineIntent "red button" = Intent.search :=
  ⟨(determineIntent_keyword_routing "explain or suggest it").1 rfl,
   (determineIntent_keyword_routing "suggest a button").2.1 rfl rfl,
   (determineIntent_keyword_routing "red button").2.2.1 rfl rfl⟩

/-- C4: `RAGClient.healthCheck` returns true exactly when the transport
succeeded and the parsed body's `status` field equals "healthy"; every
transport failure yields false (the catch returns false, so the caller
never sees an exception). -/
theorem healthCheck_iff_healthy (r : Except String HealthData) :
    (ragHealthCheck r = true ↔ ∃ d, r = Except.ok d ∧ d.status = some "healthy")
    ∧ (∀ e, ragHealthCheck (Except.error e) = false) := by
  constructor
  · cases r with
    | ok d => simp [ragHealthCheck]
    | error e => simp [ragHealthCheck]
  · intro e
    rfl

/-- Witness for C4: a healthy body yields true, an "unhealthy" status
and a transport failure yield false. -/
theorem healthCheck_iff_healthy_witness :
    ragHealthCheck (Except.ok (HealthData.mk (some "healthy"))) = true
    ∧ ragHealthCheck (Except.ok (HealthData.mk (some "unhealthy"))) ≠ true
    ∧ ragHealthCheck (Except.error "ECONNREFUSED") = false := by
  refine ⟨?_, ?_, ?_⟩
  · exact (healthCheck_iff_healthy (Except.ok (HealthData.mk (some "healthy")))).1.mpr
      ⟨HealthData.mk (some "healthy"), rfl, rfl⟩
  · intro h
    rcases (healthCheck_iff_healthy (Except.ok (HealthData.mk (some "unhealthy")))).1.mp h with
      ⟨d, hd, hs⟩
    cases hd
    simp at hs
  · exact (healthCheck_iff_healthy (Except.error "ECONNREFUSED")).2 "ECONNREFUSED"

/-- C10: the webview's `componentDeleted` handler keeps exactly the
components whose id differs from the deleted one, each unchanged and in
the original order (the filtered list is a sublist of the original). -/
theorem sidebar_delete_exact (comps : List Component) (x : String) :
    (∀ c, c ∈ webviewComponentDeleted comps x ↔ (c ∈ comps ∧ c.id ≠ x))
    ∧ List.Sublist (webviewComponentDeleted comps x) comps := by
  constructor
  · intro c
    simp [webviewComponentDeleted, List.mem_filter]
  · exact List.filter_sublist comps

/-- Witness for C10: deleting id "b" from a two-component list keeps
exactly the component with id "a". -/
theorem sidebar_delete_exact_witness :
    let ca : Component := { id := "a", name := "A", description := "" }
    let cb : Component := { id := "b", name := "B", description := "" }
    ca ∈ webviewComponentDeleted [ca, cb] "b" ∧ cb ∉ webviewComponentDeleted [ca, cb] "b" := by
  intro ca cb
  constructor
  · exact (sidebar_delete_exact [ca, cb] "b").1 ca |>.mpr ⟨by simp, by simp⟩
  · intro hmem
    have h := (sidebar_delete_exact [ca, cb] "b").1 cb |>.mp hmem
    exact h.2 rfl

/-- A client whose health check reports healthy but whose data methods
all throw, used to exercise the error paths. -/
def downClient : ClientBehavior :=
  ClientBehavior.mk true
    (fun _ _ => Except.error "Error: Failed to search components")
    (fun _ _ => Except.error "Error: Failed to suggest components")
    (fun _ => Except.error "Error: Failed to get components by name")

/-- A client whose health check reports unhealthy. -/
def offlineClient : ClientBehavior :=
  ClientBehavior.mk false
    (fun _ _ => Except.error "ECONNREFUSED")
    (fun _ _ => Except.error "ECONNREFUSED")
    (fun _ => Except.error "ECONNREFUSED")

/-- C3: the IDE shell degrades gracefully: every chat request returns
the normal `ChatResult` (no exception escapes `handleRequest`), a
client error on the search path is surfaced as streamed markdown, and
each of the four Copilot tool handlers turns a thrown client error into
a `success = false` result carrying the error message. -/
theorem chat_and_tools_degrade_gracefully :
    (∀ (client : ClientBehavior) (extractName : String → Option String) (prompt : String),
      (handleRequest client extractName prompt).result = normalChatResult)
    ∧ (∀ (client : ClientBehavior) (extractName : String → Option String) (prompt : String)
        (e : String), client.healthCheck = true → determineIntent prompt = Intent.search →
        client.searchComponents prompt 5 = Except.error e →
        (handleRequest client extractName prompt).stream =
          ["🔍 Searching for components...\n\n", "Failed to search: " ++ e])
    ∧ (∀ (searchFn : String → Int → Except String SearchResponse) (q : String)
        (lim : Option Int) (e : String), searchFn q (jsOrNum lim 10) = Except.error e →
        (searchComponentsToolHandler searchFn q lim).1 =
          SearchToolResult.mk false [] (some ("Failed to search components: " ++ e)))
    ∧ (∀ (getFn : String → Except String (List Component)) (n e : String),
        getFn n = Except.error e →
        (explainComponentToolHandler getFn n).1 =
          ExplainToolResult.mk false none (some ("Failed to get component details: " ++ e)))
    ∧ (∀ (suggestFn : String → Int → Except String SearchResponse) (u : String)
        (lim : Option Int) (e : String), suggestFn u (jsOrNum lim 5) = Except.error e →
        (suggestComponentForUIToolHandler suggestFn u lim).1 =
          SuggestToolResult.mk false [] (some ("Failed to suggest components: " ++ e)))
    ∧ (∀ (scanFn : JsObj → Except String ScanResult) (fp is rc : JsVal) (e : String),
        scanFn (scanToolClientArg fp is rc) = Except.error e →
        scanComponentFolderToolHandler scanFn fp is rc =
          ScanToolResult.mk false none [] [] (some ("Failed to scan folder: " ++ e))) := by
  refine ⟨?_, ?_, ?_, ?_, ?_, ?_⟩
  · intro client extractName prompt
    unfold handleRequest
    split
    · rfl
    · simp only []
      cases determineIntent prompt
      · exact handleSearch_result client prompt
      · exact handleSuggest_result client prompt
      · exact handleExplain_result client (extractName prompt)
  · intro client extractName prompt e hh hi hs
    unfold handleRequest
    simp [hh, hi, handleSearch, hs]
  · intro searchFn q lim e h
    unfold searchComponentsToolHandler
    simp [h]
  · intro getFn n e h
    unfold explainComponentToolHandler
    simp [h]
  · intro suggestFn u lim e h
    unfold suggestComponentForUIToolHandler
    simp [h]
  · intro scanFn fp is rc e h
    unfold scanComponentFolderToolHandler
    simp [h]

/-- Witness for C3 at concrete inputs: with `downClient` every path
yields a normal result, the streamed search failure message, and
failure objects from all four tools. -/
theorem chat_and_tools_degrade_gracefully_witness :
    (handleRequest downClient (fun _ => none) "red button").result = normalChatResult
    ∧ (handleRequest downClient (fun _ => none) "red button").stream =
        ["🔍 Searching for components...\n\n",
         "Failed to search: Error: Failed to search components"]
    ∧ (searchComponentsToolHandler downClient.searchComponents "button" none).1 =
        SearchToolResult.mk false []
          (some "Failed to search components: Error: Failed to search components")
    ∧ (explainComponentToolHandler downClient.getComponentsByName "Button").1 =
        ExplainToolResult.mk false none
          (some "Failed to get component details: Error: Failed to get components by name")
    ∧ (suggestComponentForUIToolHandler downClient.suggestComponents "a form" none).1 =
        SuggestToolResult.mk false []
          (some "Failed to suggest components: Error: Failed to suggest components")
    ∧ scanComponentFolderToolHandler (fun _ => Except.error "Error: Failed to scan folder")
        (JsVal.str "/proj/src") JsVal.undef JsVal.undef =
        ScanToolResult.mk false none [] []
          (some "Failed to scan folder: Error: Failed to scan folder") :=
  ⟨chat_and_tools_degrade_gracefully.1 downClient (fun _ => none) "red button",
   chat_and_tools_degrade_gracefully.2.1 downClient (fun _ => none) "red button"
     "Error: Failed to search components" rfl rfl rfl,
   chat_and_tools_degrade_gracefully.2.2.1 downClient.searchComponents "button" none
     "Error: Failed to search components" rfl,
   chat_and_tools_degrade_gracefully.2.2.2.1 downClient.getComponentsByName "Button"
     "Error: Failed to get components by name" rfl,
   chat_and_tools_degrade_gracefully.2.2.2.2.1 downClient.suggestComponents "a form" none
     "Error: Failed to suggest components" rfl,
   chat_and_tools_degrade_gracefully.2.2.2.2.2
     (fun _ => Except.error "Error: Failed to scan folder")
     (JsVal.str "/proj/src") JsVal.undef JsVal.undef "Error: Failed to scan folder" rfl⟩

/-- C5: when the health check reports unhealthy, `handleRequest`
streams exactly the advisory message, returns the normal `ChatResult`,
and issues no search, suggest, or get-by-name request: its only service
call is the health check itself. -/
theorem unhealthy_advisory_no_service_calls (client : ClientBehavior)
    (extractName : String → Option String) (prompt : String)
    (h : client.healthCheck = false) :
    handleRequest client extractName prompt =
      ChatOutcome.mk normalChatResult [unhealthyAdvisory] [ServiceCall.healthCheck]
    ∧ ∀ call ∈ (handleRequest client extractName prompt).calls,
        call = ServiceCall.healthCheck := by
  unfold handleRequest
  simp [h]

/-- Witness for C5: the offline client gets the advisory and a single
health-check call even for a query that would otherwise hit search. -/
theorem unhealthy_advisory_no_service_calls_witness :
    handleRequest offlineClient (fun _ => none) "red button" =
      ChatOutcome.mk normalChatResult [unhealthyAdvisory] [ServiceCall.healthCheck]
    ∧ ∀ call ∈ (handleRequest offlineClient (fun _ => none) "red button").calls,
        call = ServiceCall.healthCheck :=
  unhealthy_advisory_no_service_calls offlineClient (fun _ => none) "red button" rfl

/-- C6: `RAGClient.scanFolder` sends `folder_path` plus the three
option flags, defaulting `includeStorybooks` to true, `includeTests` to
false and `recursive` to true when omitted; on success it returns a
camelCase `ScanResult` whose `errors` field is always a list — the
empty list when the wire response omits `errors`. -/
theorem scanFolder_contract (post : ScanWireRequest → Except String ScanWireResponse)
    (request : ScanComponentFolderRequest) (resp : ScanWireResponse)
    (h : post (scanFolderWire request) = Except.ok resp) :
    (scanFolderWire request).folder_path = request.folderPath
    ∧ (request.includeStorybooks = none → (scanFolderWire request).include_storybooks = true)
    ∧ (request.includeTests = none → (scanFolderWire request).include_tests = false)
    ∧ (request.recursive = none → (scanFolderWire request).recursive = true)
    ∧ (∀ b, request.includeStorybooks = some b →
        (scanFolderWire request).include_storybooks = b)
    ∧ (∀ b, request.includeTests = some b → (scanFolderWire request).include_tests = b)
    ∧ (∀ b, request.recursive = some b → (scanFolderWire request).recursive = b)
    ∧ ragScanFolder post request =
        Except.ok (ScanResult.mk resp.components_found resp.components (resp.errors.getD []))
    ∧ (resp.errors = none →
        ragScanFolder post request =
          Except.ok (ScanResult.mk resp.components_found resp.components [])) := by
  refine ⟨rfl, ?_, ?_, ?_, ?_, ?_, ?_, ?_, ?_⟩
  · intro hs
    simp [scanFolderWire, hs]
  · intro hs
    simp [scanFolderWire, hs]
  · intro hs
    simp [scanFolderWire, hs]
  · intro b hs
    simp [scanFolderWire, hs]
  · intro b hs
    simp [scanFolderWire, hs]
  · intro b hs
    simp [scanFolderWire, hs]
  · simp [ragScanFolder, h, scanFolderResult]
  · intro he
    simp [ragScanFolder, h, scanFolderResult, he]

/-- Witness for C6: a request with all option flags omitted goes out
with defaults true/false/true and the supplied folder path, and a wire
response omitting `errors` comes back with `errors = []`. -/
theorem scanFolder_contract_witness :
    scanFolderWire (ScanComponentFolderRequest.mk "/proj/src" none none none) =
      ScanWireRequest.mk "/proj/src" true false true
    ∧ ragScanFolder (fun _ => Except.ok (ScanWireResponse.mk 2 [] none))
        (ScanComponentFolderRequest.mk "/proj/src" none none none) =
      Except.ok (ScanResult.mk 2 [] []) := by
  have h := scanFolder_contract (fun _ => Except.ok (ScanWireResponse.mk 2 [] none))
    (ScanComponentFolderRequest.mk "/proj/src" none none none)
    (ScanWireResponse.mk 2 [] none) rfl
  exact ⟨rfl, h.2.2.2.2.2.2.2.2 rfl⟩

/-- C7 counterexample: the claim says the HTTP client is not held as
ambient module-level singleton state, which would make the client a
handler obtains independent of that ambient state; in the code
`getRAGClient` reads the module variable, so with the same
configuration (port 8765) the returned client differs between an empty
module state and a module state already holding a client built for
port 9999. -/
theorem getRAGClient_depends_on_module_state :
    ¬ (getRAGClient 8765 none).1 = (getRAGClient 8765 (some (RAGClient.make 9999))).1 := by
  simp only [getRAGClient, RAGClient.make]
  decide

/-- C7 amended: `getRAGClient` is a lazily-initialised module-level
singleton accessor: it caches the client it creates in module state,
returns the cached instance on every later call regardless of the
configured port, and `resetRAGClient` clears the cache; handlers obtain
the client through this ambient accessor, not by injection. -/
theorem getRAGClient_is_module_singleton (port port2 : Nat) (st : Option RAGClient) :
    (getRAGClient port st).2 = some (getRAGClient port st).1
    ∧ (st = none → (getRAGClient port st).1 = RAGClient.make port)
    ∧ (∀ c, st = some c → (getRAGClient port st).1 = c)
    ∧ getRAGClient port2 (getRAGClient port st).2 =
        ((getRAGClient port st).1, some (getRAGClient port st).1)
    ∧ resetRAGClient = none := by
  cases st <;> simp [getRAGClient, resetRAGClient]

/-- Witness for C7 amended: starting from an empty module state with
port 8765, the first call creates and caches the client and a second
call (even with port 9999 configured) returns the same instance. -/
theorem getRAGClient_is_module_singleton_witness :
    (getRAGClient 8765 none).1 = RAGClient.make 8765
    ∧ getRAGClient 9999 (getRAGClient 8765 none).2 =
        ((getRAGClient 8765 none).1, some ((getRAGClient 8765 none).1)) :=
  ⟨(getRAGClient_is_module_singleton 8765 9999 none).2.1 rfl,
   (getRAGClient_is_module_singleton 8765 9999 none).2.2.2.1⟩

/-- C8: explain-by-name never escapes as an exception and picks the
first match: when `getComponentsByName` yields the empty list the
explain tool returns a `success = false` not-found result and the chat
explain handler streams a not-found message; when it yields a non-empty
list, exactly the head of the list is the component explained; a thrown
client error becomes a `success = false` result. -/
theorem explain_first_match_or_not_found
    (getFn : String → Except String (List Component)) (name : String)
    (client : ClientBehavior) (cn : String) :
    (getFn name = Except.ok [] →
      (explainComponentToolHandler getFn name).1 =
        ExplainToolResult.mk false none (some ("Component \"" ++ name ++ "\" not found")))
    ∧ (∀ c rest, getFn name = Except.ok (c :: rest) →
      (explainComponentToolHandler getFn name).1 =
        ExplainToolResult.mk true (some (explainToolView c)) none)
    ∧ (∀ e, getFn name = Except.error e →
      (explainComponentToolHandler getFn name).1 =
        ExplainToolResult.mk false none (some ("Failed to get component details: " ++ e)))
    ∧ (client.getComponentsByName cn = Except.ok [] →
      handleExplain client (some cn) =
        ChatOutcome.mk normalChatResult
          ["Component \"" ++ cn ++ "\" not found in the knowledge base."]
          [ServiceCall.componentsByName cn])
    ∧ (∀ c rest, client.getComponentsByName cn = Except.ok (c :: rest) →
      handleExplain client (some cn) =
        ChatOutcome.mk normalChatResult (explainMarkdown c)
          [ServiceCall.componentsByName cn]) := by
  refine ⟨?_, ?_, ?_, ?_, ?_⟩
  · intro h
    unfold explainComponentToolHandler
    simp [h]
  · intro c rest h
    unfold explainComponentToolHandler
    simp [h]
  · intro e h
    unfold explainComponentToolHandler
    simp [h]
  · intro h
    unfold handleExplain
    simp [h]
  · intro c rest h
    unfold handleExplain
    simp [h]

/-- A sample component and a client that knows it under its name,
exercising the explain paths concretely. -/
def buttonComponent : Component :=
  { id := "cmp-1", name := "PrimaryButton", description := "button with primary styling" }

/-- A second component sharing the name, to show the first match wins. -/
def buttonComponentB : Component :=
  { id := "cmp-2", name := "PrimaryButton", description := "older duplicate" }

/-- A client that resolves "PrimaryButton" to two matches and finds
nothing else. -/
def namedClient : ClientBehavior :=
  ClientBehavior.mk true
    (fun _ _ => Except.ok (SearchResponse.mk [] 0 ""))
    (fun _ _ => Except.ok (SearchResponse.mk [] 0 ""))
    (fun n => if n = "PrimaryButton" then Except.ok [buttonComponent, buttonComponentB]
              else Except.ok [])

/-- Witness for C8: an unknown name yields the not-found tool result
and not-found chat message; a name with two matches explains exactly
the first one. -/
theorem explain_first_match_or_not_found_witness :
    (explainComponentToolHandler namedClient.getComponentsByName "Ghost").1 =
      ExplainToolResult.mk false none (some "Component \"Ghost\" not found")
    ∧ (explainComponentToolHandler namedClient.getComponentsByName "PrimaryButton").1 =
      ExplainToolResult.mk true (some (explainToolView buttonComponent)) none
    ∧ handleExplain namedClient (some "Ghost") =
      ChatOutcome.mk normalChatResult
        ["Component \"Ghost\" not found in the knowledge base."]
        [ServiceCall.componentsByName "Ghost"]
    ∧ handleExplain namedClient (some "PrimaryButton") =
      ChatOutcome.mk normalChatResult (explainMarkdown buttonComponent)
        [ServiceCall.componentsByName "PrimaryButton"] :=
  ⟨(explain_first_match_or_not_found namedClient.getComponentsByName "Ghost" namedClient
      "Ghost").1 rfl,
   (explain_first_match_or_not_found namedClient.getComponentsByName "PrimaryButton" namedClient
      "PrimaryButton").2.1 buttonComponent [buttonComponentB] rfl,
   (explain_first_match_or_not_found namedClient.getComponentsByName "Ghost" namedClient
      "Ghost").2.2.2.1 rfl,
   (explain_first_match_or_not_found namedClient.getComponentsByName "PrimaryButton" namedClient
      "PrimaryButton").2.2.2.2 buttonComponent [buttonComponentB] rfl⟩

/-- C9: the Copilot tools coerce falsy limits to fixed defaults before
calling the service: the search tool forwards `parameters.limit` when
truthy and 10 otherwise, the suggest tool forwards it when truthy and 5
otherwise, and a limit of 0 is never forwarded. -/
theorem tool_limit_defaults (searchFn suggestFn : String → Int → Except String SearchResponse)
    (query ui : String) (limit : Option Int) :
    ((limit = none ∨ limit = some 0) →
      (searchComponentsToolHandler searchFn query limit).2 = [ServiceCall.search query 10]
      ∧ (suggestComponentForUIToolHandler suggestFn ui limit).2 = [ServiceCall.suggest ui 5])
    ∧ (∀ n, n ≠ 0 → limit = some n →
      (searchComponentsToolHandler searchFn query limit).2 = [ServiceCall.search query n]
      ∧ (suggestComponentForUIToolHandler suggestFn ui limit).2 = [ServiceCall.suggest ui n])
    ∧ (∀ l, (searchComponentsToolHandler searchFn query limit).2 =
        [ServiceCall.search query l] → l ≠ 0)
    ∧ (∀ l, (suggestComponentForUIToolHandler suggestFn ui limit).2 =
        [ServiceCall.suggest ui l] → l ≠ 0) := by
  refine ⟨?_, ?_, ?_, ?_⟩
  · intro h
    rcases h with h | h <;>
      simp [searchTool_calls, suggestTool_calls, jsOrNum, h]
  · intro n hn h
    simp [searchTool_calls, suggestTool_calls, jsOrNum, h, hn]
  · intro l h
    rw [searchTool_calls] at h
    have := List.head_eq_of_cons_eq h
    cases this
    exact jsOrNum_ne_zero limit 10 (by decide)
  · intro l h
    rw [suggestTool_calls] at h
    have := List.head_eq_of_cons_eq h
    cases this
    exact jsOrNum_ne_zero limit 5 (by decide)

/-- Witness for C9: limit 0 forwards 10 and 5, a truthy limit 3 is
forwarded unchanged, and the forwarded limit is never 0. -/
theorem tool_limit_defaults_witness :
    ((searchComponentsToolHandler downClient.searchComponents "q" (some 0)).2 =
        [ServiceCall.search "q" 10]
      ∧ (suggestComponentForUIToolHandler downClient.suggestComponents "u" (some 0)).2 =
        [ServiceCall.suggest "u" 5])
    ∧ ((searchComponentsToolHandler downClient.searchComponents "q" (some 3)).2 =
        [ServiceCall.search "q" 3]
      ∧ (suggestComponentForUIToolHandler downClient.suggestComponents "u" (some 3)).2 =
        [ServiceCall.suggest "u" 3]) :=
  ⟨(tool_limit_defaults downClient.searchComponents downClient.suggestComponents
      "q" "u" (some 0)).1 (Or.inr rfl),
   (tool_limit_defaults downClient.searchComponents downClient.suggestComponents
      "q" "u" (some 3)).2.1 3 (by decide) rfl⟩

/-- C1: evidence that the casing convention is not applied
consistently. The scan tool builds its argument with snake_case keys
("folder_path" carries the path), but `RAGClient.scanFolder` translates
by reading the camelCase key "folderPath", so the wire body's
`folder_path` goes out as `undefined`; and the search/explain tool
handlers read snake_case fields (`import_path`, `file_path`) off values
whose shared `Component` type declares only camelCase names
(`importPath`, `filePath`), so search/suggest results and the shared
type do not agree on one convention. -/
theorem casing_boundary_mismatch :
    jsGet (scanToolClientArg (JsVal.str "/proj/src") JsVal.undef JsVal.undef) "folder_path" =
      JsVal.str "/proj/src"
    ∧ jsGet (scanFolderPythonRequest
        (scanToolClientArg (JsVal.str "/proj/src") JsVal.undef JsVal.undef)) "folder_path" =
      JsVal.undef
    ∧ "import_path" ∈ searchToolComponentFieldsRead
    ∧ "import_path" ∉ componentTypeFields
    ∧ "importPath" ∈ componentTypeFields
    ∧ "file_path" ∈ explainToolComponentFieldsRead
    ∧ "file_path" ∉ componentTypeFields
    ∧ "filePath" ∈ componentTypeFields
    ∧ hasUnderscore "import_path" = true
    ∧ (∀ f ∈ componentTypeFields, hasUnderscore f = false) := by
  refine ⟨rfl, rfl, ?_, ?_, ?_, ?_, ?_, ?_, rfl, ?_⟩ <;> decide
